import Mathlib

/-!
Shallow embedding of the AnchorKit storage layer (src/storage.rs, src/types.rs,
src/errors.rs) over an explicit environment state, together with theorems
checking the specification's claims about it.

Host types are modelled as follows: `Address` (an opaque principal reference)
as `Nat`; `BytesN<32>` as length-32 byte lists; `Bytes` as byte lists; `u64`
values as `Nat` with explicit `% 2^64` where the code performs arithmetic;
`soroban_sdk::Val` tuples produced by key derivation as an inductive type.
The host storage (instance and persistent) is a pair of partial maps from
`Val` to stored values, and `extend_ttl(lifetime, lifetime)` is modelled by
its host semantics: the live-until ledger becomes the maximum of its old
value and `current_ledger + lifetime`.
-/

/-- Opaque principal identity supplied by the host environment. -/
abbrev Address := Nat

/-- A single byte. -/
abbrev Byte := Fin 256

/-- `BytesN<32>`: a fixed 32-byte value (payload hashes). -/
def Bytes32 := { l : List Byte // l.length = 32 }

instance : DecidableEq Bytes32 := fun a b =>
  decidable_of_iff (a.val = b.val) Subtype.ext_iff.symm

/-- `Bytes`: a variable-length byte sequence (signatures). -/
abbrev Bytes := List Byte

/-- Error codes from src/errors.rs. -/
inductive Error where
  | AlreadyInitialized
  | NotInitialized
  | UnauthorizedAttestor
  | AttestorAlreadyRegistered
  | AttestorNotRegistered
  | ReplayAttack
  | InvalidTimestamp
  | AttestationNotFound
  | InvalidPublicKey
deriving DecidableEq, Repr

/-- The numeric code of each error (src/errors.rs, range 100-108). -/
def Error.code : Error → Nat
  | .AlreadyInitialized => 100
  | .NotInitialized => 101
  | .UnauthorizedAttestor => 102
  | .AttestorAlreadyRegistered => 103
  | .AttestorNotRegistered => 104
  | .ReplayAttack => 105
  | .InvalidTimestamp => 106
  | .AttestationNotFound => 107
  | .InvalidPublicKey => 108

/-- The `Attestation` record from src/types.rs. -/
structure Attestation where
  id : Nat
  issuer : Address
  subject : Address
  timestamp : Nat
  payload_hash : Bytes32
  signature : Bytes
deriving DecidableEq

/-- Logical storage keys, from the `StorageKey` enum in src/storage.rs. -/
inductive StorageKey where
  | Admin
  | Attestor (addr : Address)
  | Counter
  | Attestation (id : Nat)
  | UsedHash (hash : Bytes32)
deriving DecidableEq

/-- Host `Val` produced by converting a `(symbol,)` or `(symbol, value)`
tuple, as `to_storage_key` does via `into_val`.  Distinct tuples convert to
distinct host values, which the inductive constructors capture. -/
inductive Val where
  | symT (s : String)
  | symAddrT (s : String) (a : Address)
  | symU64T (s : String) (n : Nat)
  | symBytesT (s : String) (b : Bytes32)
deriving DecidableEq

/-- `StorageKey::to_storage_key` from src/storage.rs. -/
def StorageKey.to_storage_key : StorageKey → Val
  | .Admin => .symT "ADMIN"
  | .Attestor addr => .symAddrT "ATTESTOR" addr
  | .Counter => .symT "COUNTER"
  | .Attestation id => .symU64T "ATTEST" id
  | .UsedHash hash => .symBytesT "USED" hash

/-- A value held in host storage. -/
inductive StoredVal where
  | addr (a : Address)
  | u64 (n : Nat)
  | boolean (b : Bool)
  | att (a : Attestation)
deriving DecidableEq

/-- The host environment state visible to the storage layer: the instance
storage map and its live-until ledger, the persistent storage map and its
per-key live-until ledgers, the current ledger sequence number and the
current ledger timestamp. -/
structure Env where
  instStore : Val → Option StoredVal
  persStore : Val → Option StoredVal
  instLiveUntil : Nat
  persLiveUntil : Val → Nat
  ledgerSeq : Nat
  ledgerTime : Nat

/-- Point update of a storage map. -/
def setVal (m : Val → Option StoredVal) (k : Val) (v : StoredVal) :
    Val → Option StoredVal :=
  fun k' => if k' = k then some v else m k'

/-- `env.storage().instance().extend_ttl(l, l)`: if fewer than `l` ledgers
remain the live-until ledger becomes `ledgerSeq + l`; with threshold equal
to the extension this is exactly a `max`. -/
def extendInstanceTtl (e : Env) (lifetime : Nat) : Env :=
  { e with instLiveUntil := max e.instLiveUntil (e.ledgerSeq + lifetime) }

/-- `env.storage().persistent().extend_ttl(&key, l, l)`, per key. -/
def extendPersistentTtl (e : Env) (k : Val) (lifetime : Nat) : Env :=
  { e with persLiveUntil :=
      fun k' => if k' = k then max (e.persLiveUntil k) (e.ledgerSeq + lifetime)
                else e.persLiveUntil k' }

/-- `2^64`, the modulus of `u64` arithmetic. -/
def U64MOD : Nat := 18446744073709551616

namespace Storage

/-- `Storage::DAY_IN_LEDGERS` from src/storage.rs. -/
def DAY_IN_LEDGERS : Nat := 17280

/-- `Storage::INSTANCE_LIFETIME` from src/storage.rs (30 days). -/
def INSTANCE_LIFETIME : Nat := DAY_IN_LEDGERS * 30

/-- `Storage::PERSISTENT_LIFETIME` from src/storage.rs (90 days). -/
def PERSISTENT_LIFETIME : Nat := DAY_IN_LEDGERS * 90

/-- `Storage::has_admin`. -/
def has_admin (e : Env) : Bool :=
  (e.instStore StorageKey.Admin.to_storage_key).isSome

/-- `Storage::set_admin`. -/
def set_admin (e : Env) (admin : Address) : Env :=
  let m := setVal e.instStore StorageKey.Admin.to_storage_key (.addr admin)
  extendInstanceTtl { e with instStore := m } INSTANCE_LIFETIME

/-- `Storage::get_admin`.  The wrong-typed branch is unreachable for states
written through this layer (the host would trap on conversion). -/
def get_admin (e : Env) : Except Error Address :=
  match e.instStore StorageKey.Admin.to_storage_key with
  | some (.addr a) => .ok a
  | _ => .error .NotInitialized

/-- `Storage::set_attestor`. -/
def set_attestor (e : Env) (attestor : Address) (is_registered : Bool) : Env :=
  let k := (StorageKey.Attestor attestor).to_storage_key
  let m := setVal e.persStore k (.boolean is_registered)
  extendPersistentTtl { e with persStore := m } k PERSISTENT_LIFETIME

/-- `Storage::is_attestor`: `get(..).unwrap_or(false)`. -/
def is_attestor (e : Env) (attestor : Address) : Bool :=
  match e.persStore (StorageKey.Attestor attestor).to_storage_key with
  | some (.boolean b) => b
  | _ => false

/-- The counter value the allocator reads: `get(..).unwrap_or(0)`. -/
def getCounter (e : Env) : Nat :=
  match e.instStore StorageKey.Counter.to_storage_key with
  | some (.u64 n) => n
  | _ => 0

/-- `Storage::get_and_increment_counter`: reads the counter (default 0),
stores back `counter + 1` as a `u64` (wrapping at `2^64`), extends the
instance TTL, and returns the pre-increment value. -/
def get_and_increment_counter (e : Env) : Nat × Env :=
  let counter := getCounter e
  let m := setVal e.instStore StorageKey.Counter.to_storage_key
    (.u64 ((counter + 1) % U64MOD))
  (counter, extendInstanceTtl { e with instStore := m } INSTANCE_LIFETIME)

/-- `Storage::set_attestation`. -/
def set_attestation (e : Env) (id : Nat) (attestation : Attestation) : Env :=
  let k := (StorageKey.Attestation id).to_storage_key
  let m := setVal e.persStore k (.att attestation)
  extendPersistentTtl { e with persStore := m } k PERSISTENT_LIFETIME

/-- `Storage::get_attestation`. -/
def get_attestation (e : Env) (id : Nat) : Except Error Attestation :=
  match e.persStore (StorageKey.Attestation id).to_storage_key with
  | some (.att a) => .ok a
  | _ => .error .AttestationNotFound

/-- `Storage::mark_hash_used`. -/
def mark_hash_used (e : Env) (hash : Bytes32) : Env :=
  let k := (StorageKey.UsedHash hash).to_storage_key
  let m := setVal e.persStore k (.boolean true)
  extendPersistentTtl { e with persStore := m } k PERSISTENT_LIFETIME

/-- `Storage::is_hash_used`: `get(..).unwrap_or(false)`. -/
def is_hash_used (e : Env) (hash : Bytes32) : Bool :=
  match e.persStore (StorageKey.UsedHash hash).to_storage_key with
  | some (.boolean b) => b
  | _ => false

end Storage

/-- The empty host environment: no stored values, all TTLs and clocks 0. -/
def emptyEnv : Env :=
  { instStore := fun _ => none
    persStore := fun _ => none
    instLiveUntil := 0
    persLiveUntil := fun _ => 0
    ledgerSeq := 0
    ledgerTime := 0 }

/-- Modelled from the spec: the Operation Layer's `record` operation is part
of this repository but not under src/ (only the storage layer it calls is),
so it is written here from §4.7 of the specification: require the
Initialized state (else NotInitialized), require the caller to be a
registered attestor (else UnauthorizedAttestor), require a non-zero
timestamp not later than the current host time (else InvalidTimestamp),
require the payload hash to be 32 bytes (else InvalidPublicKey), consult
the Replay Index (if the hash is used fail with ReplayAttack and perform
no further state change), then allocate an identifier, store the
attestation record, and mark the hash used.  The notification event is
outside this core.  The call returns the allocated identifier or the
error, paired with the resulting environment; per §4.7/§5 a failing call
leaves the environment exactly as it was. -/
def record (e : Env) (caller issuer subject : Address) (timestamp : Nat)
    (payload_hash : Bytes32) (signature : Bytes) : Except Error Nat × Env :=
  if Storage.has_admin e = false then (.error .NotInitialized, e)
  else if Storage.is_attestor e caller = false then
    (.error .UnauthorizedAttestor, e)
  else if timestamp = 0 ∨ e.ledgerTime < timestamp then
    (.error .InvalidTimestamp, e)
  else if payload_hash.val.length ≠ 32 then (.error .InvalidPublicKey, e)
  else if Storage.is_hash_used e payload_hash then (.error .ReplayAttack, e)
  else
    let r := Storage.get_and_increment_counter e
    let att : Attestation :=
      ⟨r.1, issuer, subject, timestamp, payload_hash, signature⟩
    (.ok r.1, Storage.mark_hash_used (Storage.set_attestation r.2 r.1 att)
      payload_hash)

instance {e a : Type} [DecidableEq e] [DecidableEq a] :
    DecidableEq (Except e a) := fun
  | .ok x, .ok y => decidable_of_iff (x = y) (by simp)
  | .error x, .error y => decidable_of_iff (x = y) (by simp)
  | .ok _, .error _ => isFalse (by simp)
  | .error _, .ok _ => isFalse (by simp)

/-- A sequence of `n` allocator calls, returning the list of allocated
identifiers and the final environment. -/
def allocN : Nat → Env → List Nat × Env
  | 0, e => ([], e)
  | n + 1, e =>
      let r := Storage.get_and_increment_counter e
      let rest := allocN n r.2
      (r.1 :: rest.1, rest.2)

/-- The all-zero 32-byte hash, a concrete test fixture. -/
def h0 : Bytes32 := ⟨List.replicate 32 0, by decide⟩

/-- The all-one 32-byte hash, a concrete test fixture. -/
def h1 : Bytes32 := ⟨List.replicate 32 1, by decide⟩

/-- A concrete environment whose Counter holds the maximum `u64` value. -/
def envMax : Env :=
  let m := setVal emptyEnv.instStore StorageKey.Counter.to_storage_key
    (.u64 (U64MOD - 1))
  { emptyEnv with instStore := m }

/-- A concrete initialized environment: admin 0, attestor 1 registered,
host time 1000. -/
def eInit : Env :=
  Storage.set_attestor
    (Storage.set_admin { emptyEnv with ledgerTime := 1000 } 0) 1 true

/-- A concrete attestation record, a test fixture. -/
def attA : Attestation := ⟨0, 1, 2, 5, h0, []⟩

/-- Storage-key derivation is injective (helper used across the claims). -/
theorem to_storage_key_injective : Function.Injective StorageKey.to_storage_key := by
  intro k1 k2 h
  cases k1 <;> cases k2 <;> simp_all [StorageKey.to_storage_key]

/-- The allocator returns the counter it read. -/
theorem alloc_fst (e : Env) :
    (Storage.get_and_increment_counter e).1 = Storage.getCounter e := rfl

/-- The allocator stores back the read counter plus one, wrapped at `2^64`. -/
theorem getCounter_alloc (e : Env) :
    Storage.getCounter (Storage.get_and_increment_counter e).2 =
      (Storage.getCounter e + 1) % U64MOD := by
  simp [Storage.get_and_increment_counter, Storage.getCounter,
    extendInstanceTtl, setVal]

/-- Characterization of `n` allocator calls while the counter stays within
`u64` range: the calls return the consecutive values from the starting
counter, and the final counter is the start plus `n`, wrapped. -/
theorem allocN_spec (n : Nat) : ∀ e : Env, Storage.getCounter e < U64MOD →
    Storage.getCounter e + n ≤ U64MOD →
    (allocN n e).1 = (List.range n).map (Storage.getCounter e + ·) ∧
    Storage.getCounter (allocN n e).2 =
      (Storage.getCounter e + n) % U64MOD := by
  induction n with
  | zero =>
      intro e hlt _
      refine ⟨by simp [allocN], ?_⟩
      simpa [allocN] using (Nat.mod_eq_of_lt (by omega)).symm
  | succ n ih =>
      intro e hlt he
      have hc1 : Storage.getCounter (Storage.get_and_increment_counter e).2 =
          (Storage.getCounter e + 1) % U64MOD := getCounter_alloc e
      rcases Nat.lt_or_ge (Storage.getCounter e + 1) U64MOD with hlt1 | hge
      · have hc1' : Storage.getCounter (Storage.get_and_increment_counter e).2 =
            Storage.getCounter e + 1 := by
          rw [hc1, Nat.mod_eq_of_lt hlt1]
        have ihh := ih (Storage.get_and_increment_counter e).2
          (by omega) (by omega)
        refine ⟨?_, ?_⟩
        · show Storage.getCounter e ::
            (allocN n (Storage.get_and_increment_counter e).2).1 = _
          rw [ihh.1, hc1', List.range_succ_eq_map]
          simp only [List.map_cons, List.map_map, Nat.add_zero]
          refine congrArg _ (List.map_congr_left ?_)
          intro i _
          simp only [Function.comp_apply]
          omega
        · show Storage.getCounter
            (allocN n (Storage.get_and_increment_counter e).2).2 = _
          rw [ihh.2, hc1']
          ring_nf
      · have hzero : n = 0 := by omega
        subst hzero
        refine ⟨?_, ?_⟩
        · show Storage.getCounter e ::
            (allocN 0 (Storage.get_and_increment_counter e).2).1 = _
          simp [allocN, List.range_succ]
        · show Storage.getCounter
            (allocN 0 (Storage.get_and_increment_counter e).2).2 = _
          simp only [allocN]
          simpa using hc1

/-- Claim C1 counterexample: at a state whose Counter holds `2^64 - 1`,
the allocator stores back 0, not the read value plus 1, because the `u64`
addition `counter + 1` wraps; so the claim as stated fails at that state. -/
theorem C1_counterexample :
    Storage.getCounter envMax = U64MOD - 1 ∧
    Storage.getCounter (Storage.get_and_increment_counter envMax).2 ≠
      Storage.getCounter envMax + 1 := by decide

/-- Claim C1 (amended): each allocator call returns the stored Counter
value (0 if never set) and stores back that value plus 1 modulo `2^64`;
consequently, for every sequence of at most `2^64` allocator calls on a
fresh instance, the returned identifiers are exactly `0, 1, ..., n-1`:
strictly increasing, pairwise distinct, and dense from 0. -/
theorem C1_allocator_monotone :
    (∀ e : Env,
      (Storage.get_and_increment_counter e).1 = Storage.getCounter e ∧
      Storage.getCounter (Storage.get_and_increment_counter e).2 =
        (Storage.getCounter e + 1) % U64MOD) ∧
    (∀ n : Nat, n ≤ U64MOD →
      (allocN n emptyEnv).1 = List.range n ∧
      List.Pairwise (· < ·) (allocN n emptyEnv).1 ∧
      (allocN n emptyEnv).1.Nodup) := by
  constructor
  · exact fun e => ⟨alloc_fst e, getCounter_alloc e⟩
  · intro n hn
    have h := allocN_spec n emptyEnv (by decide)
      (by simpa [Storage.getCounter, emptyEnv] using hn)
    have hr : (allocN n emptyEnv).1 = List.range n := by
      rw [h.1]
      simp [Storage.getCounter, emptyEnv]
    exact ⟨hr, by rw [hr]; exact List.pairwise_lt_range n,
      by rw [hr]; exact List.nodup_range n⟩

/-- Claim C1 witness: three allocator calls on a fresh instance return
`[0, 1, 2]`. -/
theorem C1_allocator_monotone_witness :
    3 ≤ U64MOD ∧ ((allocN 3 emptyEnv).1 = List.range 3 ∧
      List.Pairwise (· < ·) (allocN 3 emptyEnv).1 ∧
      (allocN 3 emptyEnv).1.Nodup) :=
  ⟨by decide, C1_allocator_monotone.2 3 (by decide)⟩

/-- Claim C5: the allocator has no error condition: on every environment
state it returns the read counter value, and in particular at the maximum
`u64` counter value it still succeeds, returning `2^64 - 1` and storing
back 0 (wrapping `u64` arithmetic of the release build, matching the
spec's "no error condition - always succeeds once storage is writable"). -/
theorem C5_allocator_no_failure (e : Env) :
    (Storage.get_and_increment_counter e).1 = Storage.getCounter e ∧
    (Storage.getCounter e = U64MOD - 1 →
      (Storage.get_and_increment_counter e).1 = U64MOD - 1 ∧
      Storage.getCounter (Storage.get_and_increment_counter e).2 = 0) := by
  refine ⟨alloc_fst e, fun hmax => ⟨by rw [alloc_fst, hmax], ?_⟩⟩
  rw [getCounter_alloc, hmax]
  decide

/-- Claim C5 witness: the allocator applied at a concrete state whose
Counter holds `2^64 - 1` returns `2^64 - 1` and wraps the counter to 0. -/
theorem C5_allocator_no_failure_witness :
    Storage.getCounter envMax = U64MOD - 1 ∧
    ((Storage.get_and_increment_counter envMax).1 = U64MOD - 1 ∧
      Storage.getCounter (Storage.get_and_increment_counter envMax).2 = 0) :=
  ⟨by decide, (C5_allocator_no_failure envMax).2 (by decide)⟩

/-- Claim C3: storage-key derivation is injective over all logical key
variants and parameter values, and total (it never fails: every key has a
derived value). -/
theorem C3_key_derivation_injective :
    (∀ k1 k2 : StorageKey, k1 ≠ k2 →
      k1.to_storage_key ≠ k2.to_storage_key) ∧
    (∀ k : StorageKey, ∃ v : Val, k.to_storage_key = v) :=
  ⟨fun _ _ hne heq => hne (to_storage_key_injective heq),
   fun k => ⟨k.to_storage_key, rfl⟩⟩

/-- Claim C3 witness: two concrete distinct keys derive distinct storage
keys. -/
theorem C3_key_derivation_injective_witness :
    ((StorageKey.Attestor 7 : StorageKey) ≠ StorageKey.UsedHash h0) ∧
    (StorageKey.Attestor 7).to_storage_key ≠
      (StorageKey.UsedHash h0).to_storage_key :=
  ⟨by decide, C3_key_derivation_injective.1 _ _ (by decide)⟩

/-- Claim C4: every write to Admin or Counter refreshes the instance
live-until horizon to exactly 30 x 17280 ledgers from now (unless it is
already later), and every write to an AttestorFlag, Attestation or
UsedHash entry refreshes that key's persistent live-until horizon to
exactly 90 x 17280 ledgers from now (unless already later). -/
theorem C4_lifecycle_horizons :
    Storage.INSTANCE_LIFETIME = 30 * 17280 ∧
    Storage.PERSISTENT_LIFETIME = 90 * 17280 ∧
    (∀ (e : Env) (a : Address), (Storage.set_admin e a).instLiveUntil =
      max e.instLiveUntil (e.ledgerSeq + 30 * 17280)) ∧
    (∀ e : Env, ((Storage.get_and_increment_counter e).2).instLiveUntil =
      max e.instLiveUntil (e.ledgerSeq + 30 * 17280)) ∧
    (∀ (e : Env) (a : Address) (b : Bool),
      (Storage.set_attestor e a b).persLiveUntil
          (StorageKey.Attestor a).to_storage_key =
        max (e.persLiveUntil (StorageKey.Attestor a).to_storage_key)
          (e.ledgerSeq + 90 * 17280)) ∧
    (∀ (e : Env) (id : Nat) (a : Attestation),
      (Storage.set_attestation e id a).persLiveUntil
          (StorageKey.Attestation id).to_storage_key =
        max (e.persLiveUntil (StorageKey.Attestation id).to_storage_key)
          (e.ledgerSeq + 90 * 17280)) ∧
    (∀ (e : Env) (h : Bytes32),
      (Storage.mark_hash_used e h).persLiveUntil
          (StorageKey.UsedHash h).to_storage_key =
        max (e.persLiveUntil (StorageKey.UsedHash h).to_storage_key)
          (e.ledgerSeq + 90 * 17280)) := by
  refine ⟨rfl, rfl, fun e a => rfl, fun e => rfl, ?_, ?_, ?_⟩ <;>
    intros <;>
    simp [Storage.set_attestor, Storage.set_attestation,
      Storage.mark_hash_used, extendPersistentTtl,
      Storage.PERSISTENT_LIFETIME, Storage.DAY_IN_LEDGERS]

/-- Claim C6: reading an attestation at an identifier with no stored
record fails with AttestationNotFound, and reading back immediately after
storing returns exactly the stored record. -/
theorem C6_attestation_roundtrip (e : Env) (id : Nat) (a : Attestation)
    (habs : e.persStore (StorageKey.Attestation id).to_storage_key = none) :
    Storage.get_attestation e id = .error .AttestationNotFound ∧
    Storage.get_attestation (Storage.set_attestation e id a) id = .ok a := by
  constructor
  · simp [Storage.get_attestation, habs]
  · simp [Storage.get_attestation, Storage.set_attestation,
      extendPersistentTtl, setVal]

/-- Claim C6 witness: on the empty environment, id 0 is not found, and a
concrete stored record is read back unchanged. -/
theorem C6_attestation_roundtrip_witness :
    (emptyEnv.persStore (StorageKey.Attestation 0).to_storage_key = none) ∧
    Storage.get_attestation emptyEnv 0 = .error .AttestationNotFound ∧
    Storage.get_attestation (Storage.set_attestation emptyEnv 0 attA) 0 =
      .ok attA :=
  ⟨rfl, C6_attestation_roundtrip emptyEnv 0 attA rfl⟩

/-- Claim C7: for an identity whose attestor flag was never written,
is_attestor returns false, and for a hash whose used marker was never
written, is_hash_used returns false: both reads default to false on
absent keys. -/
theorem C7_reads_default_false (e : Env) (a : Address) (h : Bytes32)
    (ha : e.persStore (StorageKey.Attestor a).to_storage_key = none)
    (hh : e.persStore (StorageKey.UsedHash h).to_storage_key = none) :
    Storage.is_attestor e a = false ∧ Storage.is_hash_used e h = false := by
  constructor
  · simp [Storage.is_attestor, ha]
  · simp [Storage.is_hash_used, hh]

/-- Claim C7 witness: on the empty environment, a concrete identity is not
an attestor and a concrete hash is not used. -/
theorem C7_reads_default_false_witness :
    (emptyEnv.persStore (StorageKey.Attestor 5).to_storage_key = none) ∧
    (emptyEnv.persStore (StorageKey.UsedHash h0).to_storage_key = none) ∧
    Storage.is_attestor emptyEnv 5 = false ∧
    Storage.is_hash_used emptyEnv h0 = false :=
  ⟨rfl, rfl, C7_reads_default_false emptyEnv 5 h0 rfl rfl⟩

/-- Claim C9: set_admin is an unconditional overwrite: for every prior
state (initialized or not) it succeeds, after it has_admin is true and
get_admin returns the written admin; no already-initialized check exists
in this layer. -/
theorem C9_set_admin_overwrite (e : Env) (a : Address) :
    Storage.has_admin (Storage.set_admin e a) = true ∧
    Storage.get_admin (Storage.set_admin e a) = .ok a := by
  constructor
  · simp [Storage.has_admin, Storage.set_admin, extendInstanceTtl, setVal]
  · simp [Storage.get_admin, Storage.set_admin, extendInstanceTtl, setVal]

/-- Claim C8: set_attestor modifies only the attestor flag of its target
identity: the admin, the counter, every attestation record, every
used-hash marker, and every other identity's attestor flag read the same
before and after. -/
theorem C8_set_attestor_frame (e : Env) (a : Address) (b : Bool)
    (a' : Address) (id : Nat) (h : Bytes32) (hne : a' ≠ a) :
    Storage.has_admin (Storage.set_attestor e a b) = Storage.has_admin e ∧
    Storage.get_admin (Storage.set_attestor e a b) = Storage.get_admin e ∧
    Storage.getCounter (Storage.set_attestor e a b) = Storage.getCounter e ∧
    Storage.get_attestation (Storage.set_attestor e a b) id =
      Storage.get_attestation e id ∧
    Storage.is_hash_used (Storage.set_attestor e a b) h =
      Storage.is_hash_used e h ∧
    Storage.is_attestor (Storage.set_attestor e a b) a' =
      Storage.is_attestor e a' ∧
    Storage.is_attestor (Storage.set_attestor e a b) a = b := by
  refine ⟨rfl, rfl, rfl, ?_, ?_, ?_, ?_⟩
  · simp [Storage.get_attestation, Storage.set_attestor,
      extendPersistentTtl, setVal, StorageKey.to_storage_key]
  · simp [Storage.is_hash_used, Storage.set_attestor,
      extendPersistentTtl, setVal, StorageKey.to_storage_key]
  · simp [Storage.is_attestor, Storage.set_attestor,
      extendPersistentTtl, setVal, StorageKey.to_storage_key, hne]
  · simp [Storage.is_attestor, Storage.set_attestor,
      extendPersistentTtl, setVal, StorageKey.to_storage_key]

/-- Claim C8 witness: concrete instance with target identity 1, observer
identity 2, attestation id 0 and hash fixture. -/
theorem C8_set_attestor_frame_witness :
    ((2 : Address) ≠ 1) ∧
    (Storage.has_admin (Storage.set_attestor eInit 1 true) =
      Storage.has_admin eInit ∧
    Storage.get_admin (Storage.set_attestor eInit 1 true) =
      Storage.get_admin eInit ∧
    Storage.getCounter (Storage.set_attestor eInit 1 true) =
      Storage.getCounter eInit ∧
    Storage.get_attestation (Storage.set_attestor eInit 1 true) 0 =
      Storage.get_attestation eInit 0 ∧
    Storage.is_hash_used (Storage.set_attestor eInit 1 true) h0 =
      Storage.is_hash_used eInit h0 ∧
    Storage.is_attestor (Storage.set_attestor eInit 1 true) 2 =
      Storage.is_attestor eInit 2 ∧
    Storage.is_attestor (Storage.set_attestor eInit 1 true) 1 = true) :=
  ⟨by decide, C8_set_attestor_frame eInit 1 true 2 0 h0 (by decide)⟩

/-- Extensionality for the environment state (helper). -/
theorem envExt {e1 e2 : Env} (h1 : e1.instStore = e2.instStore)
    (h2 : e1.persStore = e2.persStore)
    (h3 : e1.instLiveUntil = e2.instLiveUntil)
    (h4 : e1.persLiveUntil = e2.persLiveUntil)
    (h5 : e1.ledgerSeq = e2.ledgerSeq)
    (h6 : e1.ledgerTime = e2.ledgerTime) : e1 = e2 := by
  cases e1
  cases e2
  simp_all

/-- Claim C10: mark_hash_used is idempotent and local: marking a hash
twice yields exactly the state of marking it once; afterwards the hash
reads as used, and any other hash's used flag is unchanged. -/
theorem C10_mark_hash_idempotent_local (e : Env) (h h' : Bytes32)
    (hne : h' ≠ h) :
    Storage.mark_hash_used (Storage.mark_hash_used e h) h =
      Storage.mark_hash_used e h ∧
    Storage.is_hash_used (Storage.mark_hash_used e h) h = true ∧
    Storage.is_hash_used (Storage.mark_hash_used e h) h' =
      Storage.is_hash_used e h' := by
  refine ⟨?_, ?_, ?_⟩
  · apply envExt
    · rfl
    · funext k'
      simp only [Storage.mark_hash_used, extendPersistentTtl, setVal]
      by_cases hk : k' = (StorageKey.UsedHash h).to_storage_key <;> simp [hk]
    · rfl
    · funext k'
      simp only [Storage.mark_hash_used, extendPersistentTtl, setVal]
      by_cases hk : k' = (StorageKey.UsedHash h).to_storage_key <;>
        simp [hk, max_assoc]
    · rfl
    · rfl
  · simp [Storage.is_hash_used, Storage.mark_hash_used,
      extendPersistentTtl, setVal]
  · have hkne : (StorageKey.UsedHash h').to_storage_key ≠
        (StorageKey.UsedHash h).to_storage_key :=
      fun heq => hne (by injection to_storage_key_injective heq)
    simp [Storage.is_hash_used, Storage.mark_hash_used,
      extendPersistentTtl, setVal, hkne]

/-- Claim C10 witness: concrete environment and two distinct hash
fixtures. -/
theorem C10_mark_hash_idempotent_local_witness :
    (h1 ≠ h0) ∧
    (Storage.mark_hash_used (Storage.mark_hash_used emptyEnv h0) h0 =
      Storage.mark_hash_used emptyEnv h0 ∧
    Storage.is_hash_used (Storage.mark_hash_used emptyEnv h0) h0 = true ∧
    Storage.is_hash_used (Storage.mark_hash_used emptyEnv h0) h1 =
      Storage.is_hash_used emptyEnv h1) :=
  ⟨by decide, C10_mark_hash_idempotent_local emptyEnv h0 h1 (by decide)⟩

/-- The allocator leaves the admin marker unchanged (helper). -/
theorem has_admin_alloc (e : Env) :
    Storage.has_admin (Storage.get_and_increment_counter e).2 =
      Storage.has_admin e := by
  simp [Storage.has_admin, Storage.get_and_increment_counter,
    extendInstanceTtl, setVal, StorageKey.to_storage_key]

/-- Storing an attestation leaves the admin marker unchanged (helper). -/
theorem has_admin_set_attestation (e : Env) (id : Nat) (a : Attestation) :
    Storage.has_admin (Storage.set_attestation e id a) =
      Storage.has_admin e := rfl

/-- Marking a hash leaves the admin marker unchanged (helper). -/
theorem has_admin_mark (e : Env) (h : Bytes32) :
    Storage.has_admin (Storage.mark_hash_used e h) =
      Storage.has_admin e := rfl

/-- The allocator leaves attestor flags unchanged (helper). -/
theorem is_attestor_alloc (e : Env) (a : Address) :
    Storage.is_attestor (Storage.get_and_increment_counter e).2 a =
      Storage.is_attestor e a := rfl

/-- Storing an attestation leaves attestor flags unchanged (helper). -/
theorem is_attestor_set_attestation (e : Env) (id : Nat) (att : Attestation)
    (a : Address) :
    Storage.is_attestor (Storage.set_attestation e id att) a =
      Storage.is_attestor e a := by
  simp [Storage.is_attestor, Storage.set_attestation,
    extendPersistentTtl, setVal, StorageKey.to_storage_key]

/-- Marking a hash leaves attestor flags unchanged (helper). -/
theorem is_attestor_mark (e : Env) (h : Bytes32) (a : Address) :
    Storage.is_attestor (Storage.mark_hash_used e h) a =
      Storage.is_attestor e a := by
  simp [Storage.is_attestor, Storage.mark_hash_used,
    extendPersistentTtl, setVal, StorageKey.to_storage_key]

/-- After marking, the hash reads as used (helper). -/
theorem is_hash_used_mark_self (e : Env) (h : Bytes32) :
    Storage.is_hash_used (Storage.mark_hash_used e h) h = true := by
  simp [Storage.is_hash_used, Storage.mark_hash_used,
    extendPersistentTtl, setVal]

/-- Claim C2 counterexample: the second call is not unconditional on "all
other arguments": with the same hash but a caller that is not a registered
attestor, the second call fails with UnauthorizedAttestor (the
authorization check precedes the replay check), not ReplayAttack. -/
theorem C2_counterexample :
    (record eInit 1 1 2 5 h0 []).1 = .ok 0 ∧
    (record (record eInit 1 1 2 5 h0 []).2 2 1 2 7 h0 []).1 =
      .error .UnauthorizedAttestor ∧
    Error.UnauthorizedAttestor ≠ Error.ReplayAttack := by decide

/-- Claim C2 (amended): if record is called twice with the same 32-byte
payload hash, where the state is initialized, both callers are registered
attestors, both timestamps are valid, and the hash is not yet used, then
the first call succeeds (returning the allocated identifier) and the
second call fails with ReplayAttack, leaving the whole state - in
particular the Attestation Store and the Counter - exactly unchanged. -/
theorem C2_record_replay (e : Env) (c1 c2 i1 i2 s1 s2 : Address)
    (t1 t2 : Nat) (h : Bytes32) (sig1 sig2 : Bytes)
    (hadm : Storage.has_admin e = true)
    (hat1 : Storage.is_attestor e c1 = true)
    (hat2 : Storage.is_attestor e c2 = true)
    (ht1 : t1 ≠ 0) (ht1le : t1 ≤ e.ledgerTime)
    (ht2 : t2 ≠ 0) (ht2le : t2 ≤ e.ledgerTime)
    (hh : Storage.is_hash_used e h = false) :
    (record e c1 i1 s1 t1 h sig1).1 = .ok (Storage.getCounter e) ∧
    record (record e c1 i1 s1 t1 h sig1).2 c2 i2 s2 t2 h sig2 =
      (.error .ReplayAttack, (record e c1 i1 s1 t1 h sig1).2) := by
  have hfirst : record e c1 i1 s1 t1 h sig1 =
      (.ok (Storage.getCounter e),
        Storage.mark_hash_used
          (Storage.set_attestation (Storage.get_and_increment_counter e).2
            (Storage.getCounter e)
            ⟨Storage.getCounter e, i1, s1, t1, h, sig1⟩) h) := by
    simp [record, hadm, hat1, hh, ht1, h.2, Nat.not_lt.mpr ht1le, alloc_fst]
  have key : ∀ e' : Env, Storage.has_admin e' = true →
      Storage.is_attestor e' c2 = true → e'.ledgerTime = e.ledgerTime →
      Storage.is_hash_used e' h = true →
      record e' c2 i2 s2 t2 h sig2 = (.error .ReplayAttack, e') := by
    intro e' ha hb hc hd
    simp [record, ha, hb, hd, ht2, hc, Nat.not_lt.mpr ht2le]
  refine ⟨by rw [hfirst], ?_⟩
  rw [hfirst]
  apply key
  · rw [has_admin_mark, has_admin_set_attestation, has_admin_alloc]
    exact hadm
  · rw [is_attestor_mark, is_attestor_set_attestation, is_attestor_alloc]
    exact hat2
  · rfl
  · exact is_hash_used_mark_self _ h

/-- Claim C2 witness: concrete initialized environment, attestor caller 1
for both calls, the same hash fixture. -/
theorem C2_record_replay_witness :
    (Storage.has_admin eInit = true ∧ Storage.is_attestor eInit 1 = true ∧
      (5 : Nat) ≠ 0 ∧ 5 ≤ eInit.ledgerTime ∧ (7 : Nat) ≠ 0 ∧
      7 ≤ eInit.ledgerTime ∧ Storage.is_hash_used eInit h0 = false) ∧
    (record eInit 1 3 4 5 h0 []).1 = .ok (Storage.getCounter eInit) ∧
    record (record eInit 1 3 4 5 h0 []).2 1 3 4 7 h0 [] =
      (.error .ReplayAttack, (record eInit 1 3 4 5 h0 []).2) :=
  ⟨⟨by decide, by decide, by decide, by decide, by decide, by decide,
    by decide⟩,
   C2_record_replay eInit 1 1 3 3 4 4 5 7 h0 [] [] (by decide) (by decide)
     (by decide) (by decide) (by decide) (by decide) (by decide) (by decide)⟩
